import Mathlib

/-!
Verification development for the smartgraph orchestration engine.

The definitions below are shallow embeddings of the Python sources:
  * smartgraph/graph.py         (ReactiveSmartGraph: add_node, add_edge, execute/traverse_graph)
  * smartgraph/memory.py        (MemoryManager, MemoryState, ShortTermMemory, LongTermMemory)
  * smartgraph/checkpoint_manager.py (Checkpoint, CheckpointManager)
  * smartgraph/exceptions.py    (GraphStructureError, ExecutionError)

Python dictionaries are embedded as insertion-ordered association lists
(Python dicts preserve insertion order, and assigning to an existing key
keeps its position).  Exceptions are embedded with Except.  Asynchronous
execution is embedded by its deterministic data flow: asyncio.gather
returns the branch results in the order the tasks were passed, so the
recursive traversal is a pure function; a fuel parameter makes it total
(None models a traversal that does not finish, e.g. a cycle).
-/

namespace SmartGraph

/-- Exceptions that a node component may raise during processing, as the
try/except arms of ReactiveSmartGraph.execute distinguish them. -/
inductive PyExc where
  | valueError (msg : String)
  | timeout
  | other (msg : String)
deriving DecidableEq, Repr

/-- Errors surfaced by ReactiveSmartGraph.execute to its caller. -/
inductive TopErr where
  | graphStructure (msg : String)
  | executionError (msg : String) (node_id : Option String)
  | timeout
  | other (msg : String)
deriving DecidableEq, Repr

/-- The directed graph of ReactiveSmartGraph: node ids plus directed edges
carrying an edge condition (nx.DiGraph adjacency, insertion ordered). -/
structure RGraph (α : Type) where
  nodes : List String
  edges : List (String × String × (α → Bool))

/-- The environment of node components: node.process for each node id
(deterministic, may raise). -/
structure Env (α : Type) where
  process : String → α → Except PyExc α

/-- successors(node_id) of the nx.DiGraph: targets of outgoing edges in
insertion order. -/
def RGraph.successors (g : RGraph α) (nid : String) : List String :=
  (g.edges.filter (fun e => e.1 = nid)).map (fun e => e.2.1)

/-- edge_data.get("condition", lambda _: True): the condition stored on the
edge, defaulting to always-true. -/
def RGraph.edgeCond (g : RGraph α) (src tgt : String) : α → Bool :=
  match g.edges.find? (fun e => e.1 = src ∧ e.2.1 = tgt) with
  | some e => e.2.2
  | none => fun _ => true

/-- asyncio.gather over the spawned branch traversals: results are collected
in the order the tasks were passed; the first exception propagates.  The
second component of a successful result is the concatenated list of node
ids processed by the branches (the execution trace). -/
def gatherList (run : String → Option (Except PyExc (α × List String))) :
    List String → Option (Except PyExc (List α × List String))
  | [] => some (.ok ([], []))
  | t :: ts =>
    match run t with
    | none => none
    | some (.error e) => some (.error e)
    | some (.ok (r, tr)) =>
      match gatherList run ts with
      | none => none
      | some (.error e) => some (.error e)
      | some (.ok (rs, trs)) => some (.ok (r :: rs, tr ++ trs))

/-- traverse_graph of ReactiveSmartGraph.execute: process the node, list its
successors, spawn a recursive traversal for every successor whose edge
condition accepts the result, gather them, and return results[-1] (or the
node's own result when no task was spawned).  The returned trace lists every
node id whose process was invoked, in completion of the Python call tree.
Fuel bounds the recursion depth; none means the fuel ran out. -/
def traverse_graph (env : Env α) (g : RGraph α) :
    Nat → String → α → Option (Except PyExc (α × List String))
  | 0, _, _ => none
  | Nat.succ fuel, nid, data =>
    match env.process nid data with
    | .error e => some (.error e)
    | .ok result =>
      let succs := g.successors nid
      if succs.isEmpty then
        some (.ok (result, [nid]))
      else
        let valid := succs.filter (fun t => g.edgeCond nid t result)
        if valid.isEmpty then
          some (.ok (result, [nid]))
        else
          match gatherList (fun t => traverse_graph env g fuel t result) valid with
          | none => none
          | some (.error e) => some (.error e)
          | some (.ok (results, trs)) =>
            some (.ok ((results.getLast?).getD result, nid :: trs))

/-- ReactiveSmartGraph.execute: check the start node exists, run
traverse_graph, and translate exceptions as the except-arms do: a ValueError
is wrapped into an ExecutionError carrying node_id = start_node_id; a
timeout and any other exception are re-raised unchanged. -/
def execute (env : Env α) (g : RGraph α) (fuel : Nat) (start : String)
    (input : α) : Option (Except TopErr α) :=
  if start ∈ g.nodes then
    match traverse_graph env g fuel start input with
    | none => none
    | some (.ok (r, _)) => some (.ok r)
    | some (.error (.valueError m)) =>
      some (.error (.executionError ("Error during execution: " ++ m) (some start)))
    | some (.error .timeout) => some (.error .timeout)
    | some (.error (.other m)) => some (.error (.other m))
  else
    some (.error (.graphStructure ("Start node '" ++ start ++ "' not found in the graph")))

/-! Concrete instances used by the claims about the traversal. -/

/-- The diamond A->B->D, A->C->D with every edge condition true. -/
def diamondGraph : RGraph (List String) where
  nodes := ["A", "B", "C", "D"]
  edges := [("A", "B", fun _ => true), ("A", "C", fun _ => true),
            ("B", "D", fun _ => true), ("C", "D", fun _ => true)]

/-- Components that append their node id to the payload (the spec's
scenario-B style components); deterministic and never raising. -/
def appendEnv : Env (List String) where
  process := fun nid data => .ok (data ++ [nid])

/-- The two-branch fan-out A->B, A->C with both edge conditions true. -/
def fanoutGraph : RGraph (List String) where
  nodes := ["A", "B", "C"]
  edges := [("A", "B", fun _ => true), ("A", "C", fun _ => true)]

/-- The linear graph A->B. -/
def lineGraph : RGraph (List String) where
  nodes := ["A", "B"]
  edges := [("A", "B", fun _ => true)]

/-- Components where node B raises ValueError("boom") and every other node
appends its id. -/
def failEnv : Env (List String) where
  process := fun nid data =>
    if nid = "B" then .error (.valueError "boom") else .ok (data ++ [nid])

/-- Components where node B raises a non-ValueError exception and every
other node appends its id. -/
def failOtherEnv : Env (List String) where
  process := fun nid data =>
    if nid = "B" then .error (.other "crash") else .ok (data ++ [nid])

/-- The value returned by the last-completed branch, as the spec's words
describe the fan-in result: the branch results together with the order in
which the branches completed (a permutation of the branch indices), the
last-completed one selected.  Stated from the spec for comparison with the
source's results[-1]; the source's asyncio.gather orders results by the
task list, not by completion. -/
def lastCompletedBranch (results : List α) (completionOrder : List Nat) : Option α :=
  (completionOrder.getLast?).bind (fun i => results[i]?)

/-- Claim C1 (counterexample): in the diamond A->B->D, A->C->D with both
branch conditions true and a fixed input, a single invocation of
traverse_graph processes D twice (once per incoming branch), so D is not
executed at most once: the execution trace is [A, B, D, C, D]. -/
theorem C1_counterexample :
    traverse_graph appendEnv diamondGraph 6 "A" [] =
      some (.ok (["A", "C", "D"], ["A", "B", "D", "C", "D"])) ∧
    ¬ ((["A", "B", "D", "C", "D"] : List String).count "D" ≤ 1) := by
  constructor
  · rfl
  · decide

/-- Claim C1 (amended): a single invocation of traverse_graph invokes a
node's process once per condition-valid path reaching it (there is no
visited-set deduplication); in the diamond A->B->D, A->C->D with both
branch conditions true, A, B and C are processed once each and D exactly
twice. -/
theorem C1_diamond_trace :
    traverse_graph appendEnv diamondGraph 6 "A" [] =
      some (.ok (["A", "C", "D"], ["A", "B", "D", "C", "D"])) ∧
    (["A", "B", "D", "C", "D"] : List String).count "D" = 2 ∧
    (["A", "B", "D", "C", "D"] : List String).count "A" = 1 ∧
    (["A", "B", "D", "C", "D"] : List String).count "B" = 1 ∧
    (["A", "B", "D", "C", "D"] : List String).count "C" = 1 := by
  refine ⟨by rfl, by decide, by decide, by decide, by decide⟩

/-- Claim C4 (counterexample): in the fan-out A->B, A->C with both edges
valid, the two branches yield [A,B] and [A,C] (in task-list order) and the
traversal returns [A,C], the branch spawned last in the edge list.  For
the completion order in which branch 1 (C) finishes first and branch 0 (B)
finishes last — a legitimate completion order, i.e. a permutation of the
branch indices — the last-completed branch's result is [A,B], which is not
what the traversal returns.  So the returned value is not the result of
the last-completed branch. -/
theorem C4_counterexample :
    gatherList (fun t => traverse_graph appendEnv fanoutGraph 3 t ["A"]) ["B", "C"] =
      some (.ok ([["A", "B"], ["A", "C"]], ["B", "C"])) ∧
    traverse_graph appendEnv fanoutGraph 4 "A" [] =
      some (.ok (["A", "C"], ["A", "B", "C"])) ∧
    lastCompletedBranch [["A", "B"], ["A", "C"]] [1, 0] = some ["A", "B"] ∧
    List.Perm [1, 0] (List.range 2) ∧
    (["A", "B"] : List String) ≠ ["A", "C"] := by
  refine ⟨by rfl, by rfl, by rfl, by decide, by decide⟩

/-- Claim C4 (amended): when a traversal step spawns branches for its valid
successors and all of them complete successfully, the value returned is the
result of the final branch in the task list — the last valid successor in
edge iteration order — because asyncio.gather returns results in the order
the tasks were passed, independent of completion order. -/
theorem C4_last_listed (env : Env α) (g : RGraph α) (fuel : Nat) (nid : String)
    (data result v : α) (results : List α) (trs : List String)
    (hp : env.process nid data = .ok result)
    (hg : gatherList (fun t => traverse_graph env g fuel t result)
        ((g.successors nid).filter (fun t => g.edgeCond nid t result)) =
        some (.ok (results, trs)))
    (hv : results.getLast? = some v) :
    traverse_graph env g (fuel + 1) nid data = some (.ok (v, nid :: trs)) := by
  have hne : results ≠ [] := by
    intro h
    subst h
    simp at hv
  have hfilter : ∀ l : List String,
      l.filter (fun t => g.edgeCond nid t result) = [] →
      gatherList (fun t => traverse_graph env g fuel t result)
        (l.filter (fun t => g.edgeCond nid t result)) = some (.ok (results, trs)) → False := by
    intro l hl hgl
    rw [hl] at hgl
    simp only [gatherList, Option.some.injEq, Except.ok.injEq, Prod.mk.injEq] at hgl
    exact hne hgl.1.symm
  show traverse_graph env g (Nat.succ fuel) nid data = some (.ok (v, nid :: trs))
  simp only [traverse_graph, hp]
  by_cases hs : (g.successors nid).isEmpty = true
  · exact absurd hg (by
      have h0 : g.successors nid = [] := List.isEmpty_iff.mp hs
      intro hgl
      exact hfilter (g.successors nid) (by rw [h0]; rfl) hgl)
  · rw [if_neg hs]
    by_cases hvempty :
        ((g.successors nid).filter (fun t => g.edgeCond nid t result)).isEmpty = true
    · exact absurd hg (fun hgl =>
        hfilter (g.successors nid) (List.isEmpty_iff.mp hvempty) hgl)
    · rw [if_neg hvempty, hg]
      simp only [hv, Option.getD_some]

/-- Witness for C4_last_listed: in the fan-out A->B, A->C the traversal
returns the last-listed branch's result [A, C]. -/
theorem C4_last_listed_witness :
    traverse_graph appendEnv fanoutGraph 4 "A" [] =
      some (.ok (["A", "C"], ["A", "B", "C"])) :=
  C4_last_listed appendEnv fanoutGraph 3 "A" [] ["A"] ["A", "C"]
    [["A", "B"], ["A", "C"]] ["B", "C"] (by rfl) (by rfl) (by rfl)

/-- Claim C5 (counterexample): node B raises ValueError during the traversal
A -> B, and execute surfaces an ExecutionError whose node_id is "A" — the
start node — not "B", the failing node. -/
theorem C5_counterexample :
    execute failEnv lineGraph 4 "A" [] =
      some (.error (.executionError "Error during execution: boom" (some "A"))) ∧
    ("A" : String) ≠ "B" := by
  refine ⟨by rfl, by decide⟩

/-- Claim C5 (amended): a ValueError raised in a node's component is wrapped
into an ExecutionError whose node_id is the START node of the traversal (not
the failing node), and the traversal aborts with that error; any other
exception aborts the traversal and propagates unwrapped. -/
theorem C5_wrapping (env : Env α) (g : RGraph α) (fuel : Nat) (start : String)
    (input : α) (m : String) (hs : start ∈ g.nodes) :
    (traverse_graph env g fuel start input = some (.error (.valueError m)) →
      execute env g fuel start input =
        some (.error (.executionError ("Error during execution: " ++ m) (some start)))) ∧
    (traverse_graph env g fuel start input = some (.error (.other m)) →
      execute env g fuel start input = some (.error (.other m))) := by
  refine ⟨fun ht => ?_, fun ht => ?_⟩ <;>
  · unfold execute
    rw [if_pos hs, ht]

/-- Witness for C5_wrapping: concrete ValueError and non-ValueError failures
of node B in the line graph A -> B. -/
theorem C5_wrapping_witness :
    execute failEnv lineGraph 4 "A" [] =
      some (.error (.executionError ("Error during execution: " ++ "boom") (some "A"))) ∧
    execute failOtherEnv lineGraph 4 "A" [] = some (.error (.other "crash")) :=
  ⟨(C5_wrapping failEnv lineGraph 4 "A" [] "boom" (by decide)).1 (by rfl),
   (C5_wrapping failOtherEnv lineGraph 4 "A" [] "crash" (by decide)).2 (by rfl)⟩

/-! The spec-modelled traversal engine with the exit check.

The engine version the example scripts call — execute(start, input,
thread_id) returning (result, should_exit) — is not among the sources
(src/smartgraph/graph.py's traverse_graph has no exit check and its execute
returns only the result), so the exit behaviour is modelled from the spec. -/

/-- Payloads of the spec-modelled engine: a flat string dictionary. -/
abbrev Payload := List (String × String)

/-- data.get(key, "") on a Payload. -/
def lookupField (d : Payload) (k : String) : Option String :=
  (d.find? (fun p => p.1 = k)).map (fun p => p.2)

/-- str.lower() on an ASCII character. -/
def asciiLower (c : Char) : Char :=
  if c.isUpper then Char.ofNat (c.toNat + 32) else c

/-- str.lower() on an ASCII string. -/
def strLower (s : String) : String :=
  ⟨s.data.map asciiLower⟩

/-- Modelled from the spec: the termination-signal convention — "a reserved
output field (e.g., a response value case-insensitively equal to exit)". -/
def is_exit_signal (d : Payload) : Bool :=
  strLower ((lookupField d "response").getD "") = "exit"

/-- Node components of the spec-modelled engine. -/
structure SpecEnv where
  process : String → Payload → Payload

/-- Fan-out gathering for the spec-modelled engine: branch (result,
shouldExit) pairs in task order plus the concatenated traces. -/
def spec_gatherList (run : String → Option ((Payload × Bool) × List String)) :
    List String → Option (List (Payload × Bool) × List String)
  | [] => some ([], [])
  | t :: ts =>
    match run t with
    | none => none
    | some (rb, tr) =>
      match spec_gatherList run ts with
      | none => none
      | some (rbs, trs) => some (rb :: rbs, tr ++ trs)

/-- Modelled from the spec: the orchestrator traversal loop of spec section
4.6, steps 2, 4, 5, 6 and 8 — execute the current node, check the output
for the termination signal (ending the traversal successfully with
shouldExit = true before any successor is scheduled), select the
condition-valid successors, fan out over them and return the last branch's
outcome, or end with shouldExit = false when no edge is valid.  Resume
(step 1) and checkpoint cadence (step 7) are omitted: they do not affect
which nodes run after an exit signal.  The trace lists every node id whose
process ran. -/
def spec_traverse (env : SpecEnv) (g : RGraph Payload) :
    Nat → String → Payload → Option ((Payload × Bool) × List String)
  | 0, _, _ => none
  | Nat.succ fuel, nid, payload =>
    let result := env.process nid payload
    if is_exit_signal result then
      some ((result, true), [nid])
    else
      let valid := (g.successors nid).filter (fun t => g.edgeCond nid t result)
      if valid.isEmpty then
        some ((result, false), [nid])
      else
        match spec_gatherList (fun t => spec_traverse env g fuel t result) valid with
        | none => none
        | some (results, trs) =>
          some ((results.getLast?).getD (result, false), nid :: trs)

/-- Claim C2: if a node's output carries the reserved termination signal (a
response field case-insensitively equal to "exit"), the traversal ends
successfully at that node with shouldExit = true, and no further node's
process is invoked after it: the trace is exactly that node. -/
theorem C2_exit_ends_traversal (env : SpecEnv) (g : RGraph Payload) (fuel : Nat)
    (nid : String) (payload : Payload)
    (h : is_exit_signal (env.process nid payload) = true) :
    spec_traverse env g (fuel + 1) nid payload =
      some ((env.process nid payload, true), [nid]) := by
  show spec_traverse env g (Nat.succ fuel) nid payload = _
  simp [spec_traverse, h]

/-- Components where node A answers with response = "Exit" (mixed case) and
any other node tags the payload. -/
def exitEnv : SpecEnv where
  process := fun nid d =>
    if nid = "A" then [("response", "Exit")] else d ++ [("processed", nid)]

/-- The graph A -> B with an always-true edge, so B would run if A's exit
signal were ignored. -/
def exitGraph : RGraph Payload where
  nodes := ["A", "B"]
  edges := [("A", "B", fun _ => true)]

/-- Witness for C2_exit_ends_traversal: node A emits response = "Exit", so
the traversal stops at A with shouldExit = true and B never runs even
though the edge A -> B is valid. -/
theorem C2_exit_witness :
    spec_traverse exitEnv exitGraph 3 "A" [] =
      some (([("response", "Exit")], true), ["A"]) :=
  C2_exit_ends_traversal exitEnv exitGraph 2 "A" [] (by rfl)

/-! Memory module: smartgraph/memory.py. -/

/-- Python values as they occur in the memory structures. -/
inductive PyVal where
  | str (s : String)
  | int (n : Int)
  | bool (b : Bool)
  | list (xs : List PyVal)
  | dict (xs : List (String × PyVal))

/-- Exceptions raised by the memory module. -/
inductive PyError where
  | attributeError (name : String)
  | typeError (msg : String)
  | keyError (name : String)
deriving DecidableEq, Repr

/-- Ordered-dictionary lookup (Python d.get / d[k] success case). -/
def alookup (l : List (String × β)) (k : String) : Option β :=
  (l.find? (fun p => p.1 = k)).map (fun p => p.2)

/-- Ordered-dictionary assignment d[k] = v: an existing key keeps its
position, a new key is appended (Python dict insertion-order semantics). -/
def upsert (l : List (String × β)) (k : String) (v : β) : List (String × β) :=
  match l with
  | [] => [(k, v)]
  | (k0, v0) :: rest => if k0 = k then (k, v) :: rest else (k0, v0) :: upsert rest k v

/-- ShortTermMemory: the four attributes set in __init__, plus the
dynamically created attributes that setattr with any other name adds. -/
structure ShortTermMemory where
  last_input : PyVal
  last_response : PyVal
  context : PyVal
  conversation_history : PyVal
  extra : List (String × PyVal)

/-- ShortTermMemory.__init__. -/
def ShortTermMemory.init : ShortTermMemory :=
  { last_input := .str "", last_response := .str "", context := .dict [],
    conversation_history := .list [], extra := [] }

/-- LongTermMemory: facts and user_preferences. -/
structure LongTermMemory where
  facts : List PyVal
  user_preferences : List (String × PyVal)

/-- LongTermMemory.__init__. -/
def LongTermMemory.init : LongTermMemory :=
  { facts := [], user_preferences := [] }

/-- MemoryManager.get_short_term: getattr(self.state.short_term, key) —
returns the named attribute, raising AttributeError when no attribute of
that name exists. -/
def get_short_term (st : ShortTermMemory) (key : String) : Except PyError PyVal :=
  if key = "last_input" then .ok st.last_input
  else if key = "last_response" then .ok st.last_response
  else if key = "context" then .ok st.context
  else if key = "conversation_history" then .ok st.conversation_history
  else
    match alookup st.extra key with
    | some v => .ok v
    | none => .error (.attributeError key)

/-- MemoryManager.update_short_term: setattr(self.state.short_term, key,
value) — overwrites the named attribute, creating it when absent. -/
def update_short_term (st : ShortTermMemory) (key : String) (v : PyVal) :
    ShortTermMemory :=
  if key = "last_input" then { st with last_input := v }
  else if key = "last_response" then { st with last_response := v }
  else if key = "context" then { st with context := v }
  else if key = "conversation_history" then { st with conversation_history := v }
  else { st with extra := upsert st.extra key v }

/-- MemoryManager.get_long_term: getattr(self.state.long_term, key). -/
def get_long_term (lt : LongTermMemory) (key : String) : Except PyError PyVal :=
  if key = "facts" then .ok (.list lt.facts)
  else if key = "user_preferences" then .ok (.dict lt.user_preferences)
  else .error (.attributeError key)

/-- Python dict.update: merge a patch key by key, existing keys keeping
their position. -/
def dictUpdate (d patch : List (String × PyVal)) : List (String × PyVal) :=
  patch.foldl (fun acc p => upsert acc p.1 p.2) d

/-- MemoryManager.update_long_term: appends to facts, dict-merges into
user_preferences, and does nothing for any other key.  No lastAccessed
timestamp exists anywhere in the module.  (The file write of
_save_long_term_memory is I/O and not part of the state transition.) -/
def update_long_term (lt : LongTermMemory) (key : String) (v : PyVal) :
    Except PyError LongTermMemory :=
  if key = "facts" then .ok { lt with facts := lt.facts ++ [v] }
  else if key = "user_preferences" then
    match v with
    | .dict d => .ok { lt with user_preferences := dictUpdate lt.user_preferences d }
    | _ => .error (.typeError "user_preferences update requires a mapping")
  else .ok lt

/-- MemoryManager.cleanup_long_term_memory: the body is a bare pass (a
placeholder, per its own comment), so the state transition is the
identity. -/
def cleanup_long_term_memory (lt : LongTermMemory) : LongTermMemory := lt

/-- Python list slicing l[-10:]. -/
def last10 (l : List α) : List α := l.drop (l.length - 10)

/-- MemoryManager.update_conversation_history: append the tagged message to
conversation_history and keep only the last 10 entries.  The append raises
when conversation_history no longer holds a list (possible after
update_short_term overwrote it). -/
def update_conversation_history (st : ShortTermMemory) (message : String)
    (is_user : Bool) : Except PyError ShortTermMemory :=
  let tag := if is_user then "User: " else "AI: "
  match st.conversation_history with
  | .list l =>
    .ok { st with conversation_history := .list (last10 (l ++ [.str (tag ++ message)])) }
  | _ => .error (.attributeError "append")

/-- MemoryState: short-term plus long-term memory. -/
structure MemoryState where
  short_term : ShortTermMemory
  long_term : LongTermMemory

/-- MemoryState.__init__. -/
def MemoryState.init : MemoryState := ⟨.init, .init⟩

/-- MemoryState.to_dict. -/
def MemoryState.to_dict (s : MemoryState) : PyVal :=
  .dict [("short_term", .dict
            [("last_input", s.short_term.last_input),
             ("last_response", s.short_term.last_response),
             ("context", s.short_term.context),
             ("conversation_history", s.short_term.conversation_history)]),
         ("long_term", .dict
            [("facts", .list s.long_term.facts),
             ("user_preferences", .dict s.long_term.user_preferences)])]

/-- Python subscription v[k], raising KeyError / TypeError as appropriate. -/
def pyIndex (v : PyVal) (k : String) : Except PyError PyVal :=
  match v with
  | .dict d =>
    match alookup d k with
    | some x => .ok x
    | none => .error (.keyError k)
  | _ => .error (.typeError "object is not subscriptable")

/-- MemoryState.from_dict: reads the six canonical fields out of the nested
mapping (dynamically added short-term attributes are not serialized, so a
round trip drops them). -/
def MemoryState.from_dict (data : PyVal) : Except PyError MemoryState := do
  let stv ← pyIndex data "short_term"
  let ltv ← pyIndex data "long_term"
  let li ← pyIndex stv "last_input"
  let lr ← pyIndex stv "last_response"
  let cx ← pyIndex stv "context"
  let ch ← pyIndex stv "conversation_history"
  let fv ← pyIndex ltv "facts"
  let pv ← pyIndex ltv "user_preferences"
  match fv, pv with
  | .list fs, .dict ps =>
    .ok { short_term := { last_input := li, last_response := lr, context := cx,
                          conversation_history := ch, extra := [] },
          long_term := { facts := fs, user_preferences := ps } }
  | _, _ => .error (.typeError "malformed long_term payload")

/-- Number of stored conversation-history entries (0 when the attribute was
overwritten with a non-list). -/
def histLen (st : ShortTermMemory) : Nat :=
  match st.conversation_history with
  | .list l => l.length
  | _ => 0

/-- Claim C6 (counterexample): a key that is not an attribute of the memory
state raises AttributeError in both getters — so the getters do not return
a defined empty default for every missing key. -/
theorem C6_counterexample :
    get_short_term ShortTermMemory.init "missing" =
      .error (.attributeError "missing") ∧
    get_long_term LongTermMemory.init "missing" =
      .error (.attributeError "missing") := by
  refine ⟨by rfl, by rfl⟩

/-- Claim C6 (amended): get_short_term and get_long_term return the current
value of the named attribute — on a fresh manager the empty defaults (empty
string, empty mapping, empty sequence) for the six attributes created by
__init__ — but for any key that names no attribute they raise
AttributeError rather than returning a default. -/
theorem C6_defined_keys :
    (∀ st : ShortTermMemory,
      get_short_term st "last_input" = .ok st.last_input ∧
      get_short_term st "last_response" = .ok st.last_response ∧
      get_short_term st "context" = .ok st.context ∧
      get_short_term st "conversation_history" = .ok st.conversation_history) ∧
    (∀ lt : LongTermMemory,
      get_long_term lt "facts" = .ok (.list lt.facts) ∧
      get_long_term lt "user_preferences" = .ok (.dict lt.user_preferences)) ∧
    (get_short_term ShortTermMemory.init "last_input" = .ok (.str "") ∧
      get_short_term ShortTermMemory.init "context" = .ok (.dict []) ∧
      get_short_term ShortTermMemory.init "conversation_history" = .ok (.list []) ∧
      get_long_term LongTermMemory.init "facts" = .ok (.list []) ∧
      get_long_term LongTermMemory.init "user_preferences" = .ok (.dict [])) ∧
    (∀ (st : ShortTermMemory) (key : String),
      key ∉ ["last_input", "last_response", "context", "conversation_history"] →
      alookup st.extra key = none →
      get_short_term st key = .error (.attributeError key)) ∧
    (∀ (lt : LongTermMemory) (key : String),
      key ∉ ["facts", "user_preferences"] →
      get_long_term lt key = .error (.attributeError key)) := by
  refine ⟨fun st => ⟨rfl, rfl, rfl, rfl⟩, fun lt => ⟨rfl, rfl⟩,
    ⟨rfl, rfl, rfl, rfl, rfl⟩, ?_, ?_⟩
  · intro st key h hl
    simp only [List.mem_cons, List.not_mem_nil, or_false, not_or] at h
    obtain ⟨h1, h2, h3, h4⟩ := h
    unfold get_short_term
    rw [if_neg h1, if_neg h2, if_neg h3, if_neg h4, hl]
  · intro lt key h
    simp only [List.mem_cons, List.not_mem_nil, or_false, not_or] at h
    obtain ⟨h1, h2⟩ := h
    unfold get_long_term
    rw [if_neg h1, if_neg h2]

/-- Witness for C6_defined_keys: a never-set key raises AttributeError in
both getters, and a fresh manager returns the empty-string default for
last_input. -/
theorem C6_defined_keys_witness :
    get_short_term ShortTermMemory.init "nope" = .error (.attributeError "nope") ∧
    get_long_term LongTermMemory.init "nope" = .error (.attributeError "nope") ∧
    get_short_term ShortTermMemory.init "last_input" = .ok (.str "") :=
  ⟨C6_defined_keys.2.2.2.1 ShortTermMemory.init "nope" (by decide) (by rfl),
   C6_defined_keys.2.2.2.2 LongTermMemory.init "nope" (by decide),
   (C6_defined_keys.1 ShortTermMemory.init).1⟩

/-- Claim C7 (counterexample): a fact stored by update_long_term (ghost
last-access time 0) is still present after cleanup_long_term_memory runs at
ghost time 1000 with TTL 10, although 1000 - 0 exceeds the TTL: the cleanup
removes nothing and no lastAccessed timestamp is maintained anywhere. -/
theorem C7_counterexample :
    update_long_term LongTermMemory.init "facts" (.str "old") =
      .ok ⟨[.str "old"], []⟩ ∧
    cleanup_long_term_memory ⟨[.str "old"], []⟩ = ⟨[.str "old"], []⟩ ∧
    get_long_term (cleanup_long_term_memory ⟨[.str "old"], []⟩) "facts" =
      .ok (.list [.str "old"]) ∧
    10 < (1000 : Nat) - 0 := by
  refine ⟨by rfl, by rfl, by rfl, by decide⟩

/-- Claim C7 (amended): cleanup_long_term_memory is a placeholder whose body
is pass — the identity on long-term memory — so no key is ever evicted,
whatever its age; and update_long_term maintains no lastAccessed timestamp
(the state carries none). -/
theorem C7_cleanup_noop : ∀ lt : LongTermMemory, cleanup_long_term_memory lt = lt :=
  fun _ => rfl

/-- Claim C10 (counterexample): after a call to update_conversation_history
the history holds 1 entry, but a subsequent update_short_term with key
conversation_history overwrites it with an 11-entry list, so the 10-entry
bound is not preserved by every subsequent operation on the manager. -/
theorem C10_counterexample :
    update_conversation_history ShortTermMemory.init "hi" true =
      .ok { ShortTermMemory.init with
              conversation_history := .list [.str "User: hi"] } ∧
    histLen (update_short_term
      { ShortTermMemory.init with conversation_history := .list [.str "User: hi"] }
      "conversation_history"
      (.list ((List.range 11).map (fun _ => PyVal.str "m")))) = 11 ∧
    ¬ ((11 : Nat) ≤ 10) := by
  refine ⟨by rfl, by rfl, by decide⟩

/-- Claim C10 (amended): every successful call to
update_conversation_history leaves at most 10 entries in the stored
conversation history (the most recent messages, tagged User:/AI:), and the
bound is preserved by update_short_term for every key other than
conversation_history — but update_short_term with key conversation_history
overwrites the history with an arbitrary value, so the bound is not an
invariant of all manager operations. -/
theorem C10_bound :
    (∀ (st st' : ShortTermMemory) (msg : String) (u : Bool),
      update_conversation_history st msg u = .ok st' → histLen st' ≤ 10) ∧
    (∀ (st : ShortTermMemory) (key : String) (v : PyVal),
      key ≠ "conversation_history" →
      histLen (update_short_term st key v) = histLen st) := by
  constructor
  · intro st st' msg u h
    unfold update_conversation_history at h
    cases hch : st.conversation_history with
    | list l =>
      rw [hch] at h
      simp only [Except.ok.injEq] at h
      subst h
      simp only [histLen, last10, List.length_drop, List.length_append]
      omega
    | str s => rw [hch] at h; exact absurd h (by simp)
    | int n => rw [hch] at h; exact absurd h (by simp)
    | bool b => rw [hch] at h; exact absurd h (by simp)
    | dict d => rw [hch] at h; exact absurd h (by simp)
  · intro st key v h
    unfold update_short_term
    by_cases h1 : key = "last_input"
    · rw [if_pos h1]; rfl
    · rw [if_neg h1]
      by_cases h2 : key = "last_response"
      · rw [if_pos h2]; rfl
      · rw [if_neg h2]
        by_cases h3 : key = "context"
        · rw [if_pos h3]; rfl
        · rw [if_neg h3, if_neg h]; rfl

/-- Witness for C10_bound: one history update on a fresh manager stays
within the bound, and updating last_input leaves the history length
untouched. -/
theorem C10_bound_witness :
    histLen { ShortTermMemory.init with
                conversation_history := .list [.str "User: hi"] } ≤ 10 ∧
    histLen (update_short_term ShortTermMemory.init "last_input" (.str "x")) =
      histLen ShortTermMemory.init :=
  ⟨C10_bound.1 ShortTermMemory.init _ "hi" true (by rfl),
   C10_bound.2 ShortTermMemory.init "last_input" (.str "x") (by decide)⟩

/-! Checkpoint store: smartgraph/checkpoint_manager.py (the Checkpointer of
smartgraph/checkpointer.py shares the same save/get_latest logic). -/

/-- The Checkpoint record of checkpoint_manager.py: node id, serialized
state snapshot, candidate next nodes. -/
structure Checkpoint where
  node_id : String
  state : String
  next_nodes : List String
deriving DecidableEq, Repr

/-- The CheckpointManager: in-memory checkpoints (thread id to a mapping
from node id to checkpoint, insertion ordered) and the durable storage
(one record per thread, as _save_to_disk writes it and load_from_disk
parses it back; serialization of these string/list fields is faithful). -/
structure CheckpointManager where
  checkpoints : List (String × List (String × Checkpoint))
  disk : List (String × List (String × Checkpoint))

/-- A manager over empty in-memory and durable storage. -/
def emptyManager : CheckpointManager := ⟨[], []⟩

/-- A fresh manager hydrating from existing durable storage (a new process
over the same storage path). -/
def freshStore (disk : List (String × List (String × Checkpoint))) :
    CheckpointManager :=
  ⟨[], disk⟩

/-- CheckpointManager.save_checkpoint: upsert into the thread mapping keyed
by checkpoint.node_id, then _save_to_disk rewrites the whole thread record
from memory. -/
def save_checkpoint (m : CheckpointManager) (tid : String) (cp : Checkpoint) :
    CheckpointManager :=
  let thread := (alookup m.checkpoints tid).getD []
  let thread' := upsert thread cp.node_id cp
  { checkpoints := upsert m.checkpoints tid thread',
    disk := upsert m.disk tid thread' }

/-- The thread mapping get_latest_checkpoint operates on: the in-memory one
when loaded, otherwise the one hydrated by load_from_disk (missing, empty
or corrupt records hydrate to the empty mapping). -/
def threadOf (m : CheckpointManager) (tid : String) : List (String × Checkpoint) :=
  match alookup m.checkpoints tid with
  | some t => t
  | none => (alookup m.disk tid).getD []

/-- The checkpoints of a thread in insertion order (dict .values()). -/
def threadValues (m : CheckpointManager) (tid : String) : List Checkpoint :=
  (threadOf m tid).map (fun p => p.2)

/-- Python string comparison a < b: lexicographic on the code points. -/
def strLt (a b : String) : Bool := decide (a.data < b.data)

/-- Python max(values, key=lambda c: c.node_id): the first value with the
lexicographically greatest node_id. -/
def maxByNodeId : List Checkpoint → Option Checkpoint
  | [] => none
  | c :: cs =>
    some (cs.foldl (fun best x => if strLt best.node_id x.node_id then x else best) c)

/-- CheckpointManager.get_latest_checkpoint: hydrate the thread if needed,
return None for an empty mapping, else max by node_id. -/
def get_latest_checkpoint (m : CheckpointManager) (tid : String) : Option Checkpoint :=
  maxByNodeId (threadValues m tid)

/-- The checkpoint for node z saved first in the C3 scenario. -/
def cpZ : Checkpoint := ⟨"z", "state-z", []⟩

/-- The checkpoint for node a saved second in the C3 scenario. -/
def cpA : Checkpoint := ⟨"a", "state-a", ["b"]⟩

/-- The manager after saving the z checkpoint and then the a checkpoint on
thread t. -/
def managerZA : CheckpointManager :=
  save_checkpoint (save_checkpoint emptyManager "t" cpZ) "t" cpA

/-- Claim C3 (counterexample): after saving a checkpoint for node z and then
one for node a on the same thread, get_latest_checkpoint returns the z
checkpoint (the lexicographically greatest node_id), not the a checkpoint
that was saved most recently. -/
theorem C3_counterexample :
    get_latest_checkpoint managerZA "t" = some cpZ ∧
    cpZ.node_id = "z" ∧ cpA.node_id = "a" ∧ cpZ ≠ cpA := by
  refine ⟨by rfl, by rfl, by rfl, by decide⟩

/-- strLt a b = false states that b is lexicographically no greater than
a. -/
theorem strLt_false_iff (a b : String) :
    strLt a b = false ↔ b.data ≤ a.data := by
  unfold strLt
  rw [decide_eq_false_iff_not, not_lt]

/-- The fold inside maxByNodeId returns an element of the candidates that no
candidate lexicographically exceeds. -/
theorem maxByNodeId_fold_spec (cs : List Checkpoint) :
    ∀ c : Checkpoint,
      (cs.foldl (fun best x => if strLt best.node_id x.node_id then x else best) c) ∈ c :: cs ∧
      ∀ x ∈ c :: cs,
        x.node_id.data ≤
          (cs.foldl (fun best x => if strLt best.node_id x.node_id then x else best) c).node_id.data := by
  induction cs with
  | nil =>
    intro c
    refine ⟨by simp, ?_⟩
    intro x hx
    simp only [List.mem_singleton] at hx
    subst hx
    exact le_refl _
  | cons y ys ih =>
    intro c
    simp only [List.foldl_cons]
    obtain ⟨hmem, hmax⟩ := ih (if strLt c.node_id y.node_id then y else c)
    have hstep : (if strLt c.node_id y.node_id then y else c) = y ∨
        (if strLt c.node_id y.node_id then y else c) = c := by
      by_cases hcy : strLt c.node_id y.node_id = true
      · exact Or.inl (if_pos hcy)
      · exact Or.inr (if_neg hcy)
    have hc_le : c.node_id.data ≤ (if strLt c.node_id y.node_id then y else c).node_id.data := by
      by_cases hcy : strLt c.node_id y.node_id = true
      · rw [if_pos hcy]
        exact le_of_lt (of_decide_eq_true hcy)
      · rw [if_neg hcy]
    have hy_le : y.node_id.data ≤ (if strLt c.node_id y.node_id then y else c).node_id.data := by
      by_cases hcy : strLt c.node_id y.node_id = true
      · rw [if_pos hcy]
      · rw [if_neg hcy]
        exact (strLt_false_iff _ _).mp (Bool.not_eq_true _ ▸ hcy)
    constructor
    · rcases List.mem_cons.mp hmem with hm | hm
      · rcases hstep with hs | hs
        · rw [hs] at hm
          rw [hs, hm]
          exact List.mem_cons_of_mem _ (List.mem_cons_self _ _)
        · rw [hs] at hm
          rw [hs, hm]
          exact List.mem_cons_self _ _
      · exact List.mem_cons_of_mem _ (List.mem_cons_of_mem _ hm)
    · intro x hx
      have hacc := hmax _ (List.mem_cons_self _ _)
      rcases List.mem_cons.mp hx with hxc | hx2
      · subst hxc
        exact le_trans hc_le hacc
      · rcases List.mem_cons.mp hx2 with hxy | hxys
        · subst hxy
          exact le_trans hy_le hacc
        · exact hmax _ (List.mem_cons_of_mem _ hxys)

/-- Claim C3 (amended): get_latest_checkpoint returns the stored checkpoint
whose node_id is lexicographically greatest among the checkpoints of the
thread (after hydrating from durable storage when needed), independent of
the order in which they were saved — not the most recently saved one:
every stored checkpoint compares no greater on node_id. -/
theorem C3_max_node_id (m : CheckpointManager) (tid : String) (cp : Checkpoint)
    (h : get_latest_checkpoint m tid = some cp) :
    cp ∈ threadValues m tid ∧
    ∀ c ∈ threadValues m tid, strLt cp.node_id c.node_id = false := by
  unfold get_latest_checkpoint at h
  cases hv : threadValues m tid with
  | nil => rw [hv] at h; exact absurd h (by simp [maxByNodeId])
  | cons c0 cs =>
    rw [hv] at h
    simp only [maxByNodeId, Option.some.injEq] at h
    obtain ⟨hmem, hmax⟩ := maxByNodeId_fold_spec cs c0
    subst h
    exact ⟨hmem, fun c hc => (strLt_false_iff _ _).mpr (hmax c hc)⟩

/-- Witness for C3_max_node_id: in the z-then-a scenario the returned z
checkpoint dominates the node ids and is among the stored checkpoints. -/
theorem C3_max_node_id_witness :
    strLt cpZ.node_id cpA.node_id = false ∧ cpZ ∈ threadValues managerZA "t" :=
  ⟨(C3_max_node_id managerZA "t" cpZ (by rfl)).2 cpA (by decide),
   (C3_max_node_id managerZA "t" cpZ (by rfl)).1⟩

/-- Lookup after upsert of the same key yields the stored value. -/
theorem alookup_upsert (l : List (String × β)) (k : String) (v : β) :
    alookup (upsert l k v) k = some v := by
  induction l with
  | nil => simp [upsert, alookup, List.find?]
  | cons p rest ih =>
    obtain ⟨k0, v0⟩ := p
    by_cases hk : k0 = k
    · simp [upsert, hk, alookup, List.find?]
    · simp only [upsert, if_neg hk]
      simp only [alookup, List.find?] at ih ⊢
      have : (decide (k0 = k)) = false := decide_eq_false hk
      rw [this]
      exact ih

/-- Claim C8: saving a checkpoint for a thread with no previously loaded
checkpoints and reading the durable storage back from a fresh store returns
that same checkpoint — equal node_id, next_nodes and state snapshot — and
restoring a memory snapshot through MemoryState.from_dict of to_dict
preserves all six canonical memory fields. -/
theorem C8_roundtrip (m : CheckpointManager) (tid : String) (cp : Checkpoint)
    (h : alookup m.checkpoints tid = none) (ms : MemoryState) :
    get_latest_checkpoint (freshStore (save_checkpoint m tid cp).disk) tid = some cp ∧
    MemoryState.from_dict (MemoryState.to_dict ms) =
      .ok { ms with short_term := { ms.short_term with extra := [] } } := by
  constructor
  · unfold get_latest_checkpoint threadValues threadOf freshStore save_checkpoint
    simp only [h, Option.getD_none]
    have hmem : alookup (β := List (String × Checkpoint)) [] tid = none := by
      simp [alookup, List.find?]
    rw [hmem]
    rw [alookup_upsert m.disk tid (upsert [] cp.node_id cp)]
    rfl
  · rfl

/-- Witness for C8_roundtrip: a first save on an empty store round-trips
through durable storage, and a fresh memory state round-trips through
to_dict / from_dict. -/
theorem C8_roundtrip_witness :
    get_latest_checkpoint (freshStore (save_checkpoint emptyManager "t1" cpA).disk) "t1" =
      some cpA ∧
    MemoryState.from_dict (MemoryState.to_dict MemoryState.init) =
      .ok MemoryState.init :=
  ⟨(C8_roundtrip emptyManager "t1" cpA (by rfl) MemoryState.init).1,
   (C8_roundtrip emptyManager "t1" cpA (by rfl) MemoryState.init).2⟩

/-! Graph construction guards: ReactiveSmartGraph.add_node / add_edge of
smartgraph/graph.py (GraphUtils.add_node / add_edge of graph_utils.py have
the identical guard logic). -/

/-- nx.DiGraph.add_edge: re-adding an edge between the same ordered pair
overwrites its data. -/
def upsertEdge {α : Type} (es : List (String × String × (α → Bool))) (src tgt : String)
    (cond : α → Bool) : List (String × String × (α → Bool)) :=
  match es with
  | [] => [(src, tgt, cond)]
  | e :: rest =>
    if e.1 = src ∧ e.2.1 = tgt then (src, tgt, cond) :: rest
    else e :: upsertEdge rest src tgt cond

/-- ReactiveSmartGraph.add_node: raise GraphStructureError when the id is
already present (before any mutation, so the returned graph is the input
unchanged), else insert the node.  The second component is the raised
exception, if any. -/
def add_node (g : RGraph α) (nid : String) : RGraph α × Option TopErr :=
  if nid ∈ g.nodes then
    (g, some (.graphStructure ("Node with id " ++ nid ++ " already exists in the graph")))
  else
    ({ g with nodes := g.nodes ++ [nid] }, none)

/-- ReactiveSmartGraph.add_edge: raise GraphStructureError when either
endpoint is missing (before any mutation), else store the edge. -/
def add_edge (g : RGraph α) (src tgt : String) (cond : α → Bool) :
    RGraph α × Option TopErr :=
  if src ∉ g.nodes ∨ tgt ∉ g.nodes then
    (g, some (.graphStructure ("Invalid edge: " ++ src ++ " -> " ++ tgt)))
  else
    ({ g with edges := upsertEdge g.edges src tgt cond }, none)

/-- Claim C9: adding a node whose id is already present raises
GraphStructureError and leaves the graph unchanged, and adding an edge
whose source or target is not an existing node raises GraphStructureError
and leaves the graph unchanged. -/
theorem C9_structure_errors (g : RGraph α) (nid src tgt : String) (cond : α → Bool)
    (hdup : nid ∈ g.nodes) (hmiss : src ∉ g.nodes ∨ tgt ∉ g.nodes) :
    add_node g nid =
      (g, some (.graphStructure ("Node with id " ++ nid ++ " already exists in the graph"))) ∧
    add_edge g src tgt cond =
      (g, some (.graphStructure ("Invalid edge: " ++ src ++ " -> " ++ tgt))) := by
  constructor
  · unfold add_node
    rw [if_pos hdup]
  · unfold add_edge
    rw [if_pos hmiss]

/-- The single-node graph used by the C9 witness. -/
def graphA : RGraph (List String) := ⟨["A"], []⟩

/-- Witness for C9_structure_errors: duplicating node A and adding an edge
to the absent node Z both raise GraphStructureError on the unchanged
graph. -/
theorem C9_structure_errors_witness :
    add_node graphA "A" =
      (graphA, some (.graphStructure "Node with id A already exists in the graph")) ∧
    add_edge graphA "A" "Z" (fun _ => true) =
      (graphA, some (.graphStructure "Invalid edge: A -> Z")) :=
  C9_structure_errors graphA "A" "A" "Z" (fun _ => true) (by decide)
    (Or.inr (by decide))

end SmartGraph
